import Mathlib

set_option linter.unusedVariables false

/- Shallow embedding of ltc/telethon/events/common.py: the helper that turns
   chat specifiers into a set of marked identifiers, per-chat event
   filtering, the shared self identifier cache, the common event context
   with client binding and structured output, and the decorator renaming
   inner event classes. Exceptions are modelled with Except, mutation by
   returning the post state explicitly. -/

/-- Peer-shaped protocol objects: PeerUser, PeerChat, PeerChannel. -/
inductive Peer
| user (uid : Int)
| chat (cid : Int)
| channel (cid : Int)
deriving DecidableEq

/-- Modelled from the spec: utils.get_peer_id is outside src. The spec
glossary defines a canonical identifier as a single integer that
unambiguously encodes both the numeric id of a peer and its kind by a sign
and offset convention. Users keep their non-negative id, basic groups are
sent to the negatives by an offset of one, channels to the negatives below
a large offset, so that on any one id the three kinds never coincide. -/
def get_peer_id : Peer → Int
| .user uid => uid
| .chat cid => -cid - 1
| .channel cid => -1000000000000 - cid

/-- Python exceptions relevant here: ValueError is the one kind that
EventCommon catches during binding; everything else is otherError. -/
inductive PyErr
| valueError
| otherError
deriving DecidableEq

/-- Input peers returned by client.get_input_entity during resolution:
either InputPeerSelf or something peer shaped. -/
inductive InputPeer
| self
| ofPeer (p : Peer)
deriving DecidableEq

/-- The minimal addressable input representation of an entity. selfForm
stands for InputPeerSelf and chatForm for input peers that carry no
access_hash attribute at all; hashForm carries an access_hash attribute
whose value may be missing or zero, which getattr truthiness in the source
treats as unusable. -/
inductive InputForm
| selfForm
| chatForm (cid : Int)
| hashForm (pid : Int) (access_hash : Option Int)
deriving DecidableEq

/-- Modelled from the spec: concrete entities live in the external entity
directory; all this fragment reads from an entity is the minimal input
representation derived from it. -/
structure Entity where
  input_form : InputForm
deriving DecidableEq

/-- Modelled from the spec: utils.get_input_peer, the minimal addressable
form of a resolved entity. -/
def get_input_peer (ent : Entity) : InputForm := ent.input_form

/-- The session store used by the local fallback lookup in _set_client. -/
structure Session where
  get_input_entity : Option Peer → Except PyErr InputForm

/-- The client collaborator: get_input_entity resolves an opaque specifier,
get_me with input_peer set to True yields the own account as a peer shaped
value, me_peer_id is what get_peer_id applied to the me sentinel returns,
and session is the local store used as fallback during binding. -/
structure Client where
  get_input_entity : Nat → Except PyErr InputPeer
  get_me : Except PyErr Peer
  me_peer_id : Int
  session : Session

/-- One chat specifier: an int, a TLObject tagged with the Peer capability
marker (SUBCLASS_OF_ID equal to the Peer crc), or anything else, which has
to be resolved through the client. -/
inductive ChatSpec
| int (n : Int)
| peer (p : Peer)
| entity (r : Nat)
deriving DecidableEq

/-- The chats argument as the user passes it: None, a single specifier that
is not list-like (wrapped into a one-element tuple by _into_id_set), or a
collection of specifiers. -/
inductive ChatsInput
| noneI
| one (s : ChatSpec)
| many (l : List ChatSpec)
deriving DecidableEq

/-- The per-element body of the loop inside _into_id_set, what the spec
calls PeerIdCodec.expand: a negative int is already canonical and kept as a
singleton, a non-negative int expands to all three peer kinds, a peer
tagged object contributes its single id, and anything else goes through
client.get_input_entity, replaced by get_me when that yields InputPeerSelf.
Lookup failures propagate. -/
def expand (c : Client) (s : ChatSpec) : Except PyErr (Finset Int) :=
match s with
| .int n =>
    if n < 0 then .ok {n}
    else .ok {get_peer_id (.user n), get_peer_id (.chat n), get_peer_id (.channel n)}
| .peer p => .ok {get_peer_id p}
| .entity r =>
    match c.get_input_entity r with
    | .error e => .error e
    | .ok .self =>
        match c.get_me with
        | .error e => .error e
        | .ok me => .ok {get_peer_id me}
    | .ok (.ofPeer p) => .ok {get_peer_id p}

/-- The accumulation loop of _into_id_set over the result set. -/
def into_go (c : Client) : List ChatSpec → Finset Int → Except PyErr (Finset Int)
| [], acc => .ok acc
| s :: rest, acc =>
    match expand c s with
    | .error e => .error e
    | .ok ids => into_go c rest (acc ∪ ids)

/-- _into_id_set: None stays None, meaning unbounded; otherwise every
specifier of the (possibly wrapped) collection is expanded and accumulated
into one set of marked identifiers. -/
def _into_id_set (c : Client) (chats : ChatsInput) : Except PyErr (Option (Finset Int)) :=
match chats with
| .noneI => .ok none
| .one s =>
    match into_go c [s] ∅ with
    | .error e => .error e
    | .ok ids => .ok (some ids)
| .many l =>
    match into_go c l ∅ with
    | .error e => .error e
    | .ok ids => .ok (some ids)

/-- A candidate event as filter sees it: its chat reference is always peer
shaped, so it yields exactly one canonical identifier. -/
structure Event where
  _chat_peer : Peer
deriving DecidableEq

/-- The EventBuilder state after resolve has run: the chats attribute holds
None or the resolved set of marked identifiers, next to the blacklist
flag. -/
structure EventBuilder where
  chats : Option (Finset Int)
  blacklist_chats : Bool
deriving DecidableEq

/-- EventBuilder.filter, state passing: the body assigns to no attribute of
the builder or the event, so both are returned followed by the kept event
or None. Keeps the event unless membership of its chat id in the set equals
the blacklist flag; with chats equal to None no check happens at all. -/
def EventBuilder.filter (b : EventBuilder) (e : Event) : EventBuilder × Event × Option Event :=
match b.chats with
| none => (b, e, some e)
| some s =>
    let inside := decide (get_peer_id e._chat_peer ∈ s)
    if inside = b.blacklist_chats then (b, e, none) else (b, e, some e)

/-- The EventBuilder state before resolve: the chats attribute still holds
the raw constructor argument. -/
structure EventBuilderArgs where
  chats : ChatsInput
  blacklist_chats : Bool
deriving DecidableEq

/-- The class attribute EventBuilder.self_id together with a counter of
identity lookups, the counter stub the spec uses to state the cache
invariant. -/
structure ResolveWorld where
  self_id : Option Int
  me_lookups : Nat
deriving DecidableEq

/-- Python truthiness of the self_id attribute as tested by resolve: None
and 0 are falsy. -/
def selfIdFalsy : Option Int → Bool
| none => true
| some v => v == 0

/-- EventBuilder.resolve: assigns the resolved id set to chats, then
populates the class level self_id whenever it is falsy, counting that
identity lookup. A failing _into_id_set propagates before any assignment,
so neither the chats attribute nor the shared cache changes. -/
def EventBuilderArgs.resolve (b : EventBuilderArgs) (c : Client) (w : ResolveWorld) :
    Except PyErr (EventBuilder × ResolveWorld) :=
match _into_id_set c b.chats with
| .error e => .error e
| .ok r =>
    if selfIdFalsy w.self_id then
      .ok (⟨r, b.blacklist_chats⟩, ⟨some c.me_peer_id, w.me_lookups + 1⟩)
    else
      .ok (⟨r, b.blacklist_chats⟩, w)

/-- EventCommon instance state, fields in the order the constructor creates
them. _event_name is a class attribute in the source, carried here as an
extra field because to_dict reads it; it never appears in the instance
dictionary. -/
structure EventCommon where
  _entities : Int → Option Entity
  _client : Option Client
  _chat_peer : Option Peer
  _message_id : Option Int
  _input_chat : Option InputForm
  _chat : Option Entity
  _broadcast : Bool
  original_update : Option Unit
  _event_name : String

/-- The EventCommon constructor with its defaults. -/
def EventCommon.init (chat_peer : Option Peer) (msg_id : Option Int) (broadcast : Bool) :
    EventCommon :=
{ _entities := fun _ => none
, _client := none
, _chat_peer := chat_peer
, _message_id := msg_id
, _input_chat := none
, _chat := none
, _broadcast := broadcast
, original_update := none
, _event_name := "Event" }

/-- Modelled from the spec: ChatGetter.chat_id is outside src; per the spec
it is the canonical identifier of the chat reference, None when there is no
chat reference. -/
def EventCommon.chat_id (e : EventCommon) : Option Int :=
  e._chat_peer.map get_peer_id

/-- The dictionary lookup of the chat entity by chat_id inside _set_client;
a missing id or a missing entry yields None. -/
def EventCommon.entity_lookup (e : EventCommon) : Option Entity :=
match e.chat_id with
| none => none
| some i => e._entities i

/-- Truthiness of getattr on access_hash with default True, as _set_client
tests it: input forms without the attribute (InputPeerSelf and chat input
peers) count as usable, an attribute holding None or 0 does not. -/
def has_usable_hash : InputForm → Bool
| .selfForm => true
| .chatForm _ => true
| .hashForm _ none => false
| .hashForm _ (some h) => h != 0

/-- EventCommon._set_client: records the client, assigns the snapshot
lookup to the chat attribute and returns early when that is falsy;
otherwise derives the input form and, when its access credential is falsy,
retries through the session store by the original chat reference,
swallowing only ValueError. The second component is the exception that
escapes, if any: only a non ValueError raised by the session lookup. -/
def EventCommon._set_client (e : EventCommon) (c : Client) : EventCommon × Option PyErr :=
match e.entity_lookup with
| none => ({ e with _client := some c, _chat := none }, none)
| some ent =>
    let ic := get_input_peer ent
    if has_usable_hash ic then
      ({ e with _client := some c, _chat := some ent, _input_chat := some ic }, none)
    else
      match c.session.get_input_entity e._chat_peer with
      | .ok ip =>
          ({ e with _client := some c, _chat := some ent, _input_chat := some ip }, none)
      | .error .valueError =>
          ({ e with _client := some c, _chat := some ent, _input_chat := none }, none)
      | .error err =>
          ({ e with _client := some c, _chat := some ent, _input_chat := some ic }, some err)

/-- Values of the instance dictionary, one wrapper per field type. -/
inductive PyVal
| entitiesV (f : Int → Option Entity)
| clientV (c : Option Client)
| peerV (p : Option Peer)
| intV (n : Option Int)
| inputV (i : Option InputForm)
| chatV (ent : Option Entity)
| boolV (b : Bool)
| updateV (u : Option Unit)
| strV (s : String)

/-- The instance dictionary of an EventCommon, keys in creation order. -/
def EventCommon.instance_dict (e : EventCommon) : List (String × PyVal) :=
[("_entities", .entitiesV e._entities),
 ("_client", .clientV e._client),
 ("_chat_peer", .peerV e._chat_peer),
 ("_message_id", .intV e._message_id),
 ("_input_chat", .inputV e._input_chat),
 ("_chat", .chatV e._chat),
 ("_broadcast", .boolV e._broadcast),
 ("original_update", .updateV e.original_update)]

/-- EventCommon.to_dict: keep the entries whose key does not start with an
underscore, then add the discriminator entry holding _event_name. -/
def EventCommon.to_dict (e : EventCommon) : List (String × PyVal) :=
(e.instance_dict.filter fun kv => kv.1.front != '_') ++ [("_", .strV e._event_name)]

/-- The inner Event class of a concrete event kind: all the decorator
touches is its _event_name attribute. -/
structure InnerEvent where
  _event_name : String
deriving DecidableEq

/-- A class as the decorator sees it: its name and its optional inner Event
attribute. -/
structure PyClass where
  name : String
  Event : Option InnerEvent
deriving DecidableEq

/-- name_inner_event: rewrite the inner _event_name when the inner Event
class exists, warn otherwise (warnings.warn is modelled by the returned
list of diagnostics), and return the class in both cases. -/
def name_inner_event (cls : PyClass) : PyClass × List String :=
match cls.Event with
| some ev =>
    ({ cls with Event := some { ev with _event_name := cls.name ++ ".Event" } }, [])
| none =>
    (cls, ["Class " ++ cls.name ++ " does not have a inner Event"])

/-- A client whose directory lookups fail and whose session lookup raises
the not-found condition; enough for fixtures that never need them. -/
def cFail : Client :=
  ⟨fun _ => .error .otherError, .error .otherError, 0, ⟨fun _ => .error .otherError⟩⟩

/-- A client that resolves everything, knows the own identifier 7, and
whose session lookup raises ValueError. -/
def cOk : Client :=
  ⟨fun _ => .ok (.ofPeer (.user 1)), .ok (.user 7), 7, ⟨fun _ => .error .valueError⟩⟩

/-- A client whose identity provider returns the falsy identifier 0. -/
def cZero : Client :=
  ⟨fun _ => .ok (.ofPeer (.user 1)), .ok (.user 7), 0, ⟨fun _ => .error .valueError⟩⟩

/-- C1: with a resolved finite scope S and blacklist flag bl, filter keeps
an event exactly when membership of its canonical chat identifier in S
differs from the flag; hence for the same S and event the whitelist and the
blacklist decisions are negations of each other. -/
theorem filter_keep_iff (S : Finset Int) (bl : Bool) (e : Event) :
    ((EventBuilder.filter ⟨some S, bl⟩ e).2.2 = some e
        ↔ decide (get_peer_id e._chat_peer ∈ S) ≠ bl)
    ∧ ((EventBuilder.filter ⟨some S, false⟩ e).2.2 = some e
        ↔ ¬ (EventBuilder.filter ⟨some S, true⟩ e).2.2 = some e) := by
  cases bl <;> cases hd : decide (get_peer_id e._chat_peer ∈ S) <;>
    simp [EventBuilder.filter, hd]

/-- C10: filter always returns the builder, the event and either that very
event or None, so it changes neither the filter state nor the event. -/
theorem filter_frame (b : EventBuilder) (e : Event) :
    EventBuilder.filter b e = (b, e, some e) ∨ EventBuilder.filter b e = (b, e, none) := by
  obtain ⟨cs, bl⟩ := b
  cases cs with
  | none => exact Or.inl rfl
  | some s =>
      by_cases h : decide (get_peer_id e._chat_peer ∈ s) = bl
      · exact Or.inr (by simp [EventBuilder.filter, h])
      · exact Or.inl (by simp [EventBuilder.filter, h])

/-- C2 amended: a chat specification that is absent (None) resolves to the
unbounded scope and filter then returns every event unchanged whatever the
blacklist flag; an empty collection instead resolves to the empty finite
scope, under which whitelist mode drops every event and blacklist mode
keeps every event. -/
theorem unbounded_and_empty_scope (c : Client) (bl : Bool) (e : Event) :
    _into_id_set c .noneI = .ok none
    ∧ EventBuilder.filter ⟨none, bl⟩ e = (⟨none, bl⟩, e, some e)
    ∧ _into_id_set c (.many []) = .ok (some (∅ : Finset Int))
    ∧ (EventBuilder.filter ⟨some ∅, bl⟩ e).2.2 = (if bl then some e else none) := by
  refine ⟨rfl, rfl, rfl, ?_⟩
  cases bl <;> simp [EventBuilder.filter]

/-- C2 counterexample: the empty collection does not resolve to the
unbounded scope but to the empty finite set, and a whitelist filter over
that scope drops an event instead of returning it. -/
theorem empty_collection_not_unbounded :
    _into_id_set cFail (.many []) = .ok (some (∅ : Finset Int))
    ∧ some (∅ : Finset Int) ≠ (none : Option (Finset Int))
    ∧ (EventBuilder.filter ⟨some ∅, false⟩ ⟨.user 1⟩).2.2 = none := by
  refine ⟨rfl, by simp, by simp [EventBuilder.filter]⟩

/-- C3: a non-negative integer specifier expands to exactly the three
canonical encodings of that number as a user, a basic group and a channel,
which are pairwise distinct; a negative integer specifier expands to the
singleton holding it unchanged. -/
theorem expand_int_spec (n m : Int) (hn : 0 ≤ n) (hm : 0 < m) (c : Client) :
    expand c (.int n)
        = .ok {get_peer_id (.user n), get_peer_id (.chat n), get_peer_id (.channel n)}
    ∧ ({get_peer_id (.user n), get_peer_id (.chat n), get_peer_id (.channel n)} : Finset Int).card = 3
    ∧ expand c (.int (-m)) = .ok {-m} := by
  refine ⟨?_, ?_, ?_⟩
  · simp [expand, show ¬ n < 0 from by omega]
  · show ({n, -n - 1, -1000000000000 - n} : Finset Int).card = 3
    rw [Finset.card_insert_of_not_mem
          (by simp only [Finset.mem_insert, Finset.mem_singleton]; omega),
        Finset.card_insert_of_not_mem (by simp only [Finset.mem_singleton]; omega),
        Finset.card_singleton]
  · simp [expand, show -m < 0 from by omega]

/-- C3 witness: the expansion of 123 and of -45, concretely. -/
theorem expand_int_spec_witness :
    expand cOk (.int 123)
        = .ok {get_peer_id (.user 123), get_peer_id (.chat 123), get_peer_id (.channel 123)}
    ∧ ({get_peer_id (.user 123), get_peer_id (.chat 123), get_peer_id (.channel 123)} : Finset Int).card = 3
    ∧ expand cOk (.int (-45)) = .ok {-45} :=
  expand_int_spec 123 45 (by decide) (by decide) cOk

/-- C4 amended: once the process wide self_id cache holds a non-zero
identifier, a successful resolve, on any filter, leaves it untouched and
performs no new identity lookup; a zero identifier, being falsy in Python,
would be recomputed. -/
theorem self_id_cached (b : EventBuilderArgs) (c : Client) (w : ResolveWorld) (v : Int)
    (b' : EventBuilder) (w' : ResolveWorld)
    (hv : w.self_id = some v) (hnz : v ≠ 0)
    (hres : b.resolve c w = .ok (b', w')) :
    w'.self_id = some v ∧ w'.me_lookups = w.me_lookups := by
  unfold EventBuilderArgs.resolve at hres
  rcases h : _into_id_set c b.chats with err | r <;> rw [h] at hres
  · simp at hres
  · have hfalse : selfIdFalsy w.self_id = false := by
      simp [selfIdFalsy, hv, hnz]
    rw [hfalse] at hres
    simp only [Bool.false_eq_true, if_false, Except.ok.injEq, Prod.mk.injEq] at hres
    rw [← hres.2, hv]
    exact ⟨rfl, rfl⟩

/-- C4 witness: a second resolve against a cache already holding 7 keeps the
cached value and the lookup count. -/
theorem self_id_cached_witness :
    (⟨some 7, 1⟩ : ResolveWorld).self_id = some 7
    ∧ (⟨some 7, 1⟩ : ResolveWorld).me_lookups = (⟨some 7, 1⟩ : ResolveWorld).me_lookups :=
  self_id_cached ⟨.noneI, false⟩ cOk ⟨some 7, 1⟩ 7 ⟨none, false⟩ ⟨some 7, 1⟩
    rfl (by decide) rfl

/-- C4 counterexample: when the identity provider returns 0 the cache holds
a falsy value, so a second resolve performs a second identity lookup; two
resolving filters trigger two lookups, not one, against the claim that the
cache is populated at most once and never recomputed once it holds a
value. -/
theorem self_id_zero_recomputed :
    EventBuilderArgs.resolve ⟨.noneI, false⟩ cZero ⟨none, 0⟩
        = .ok (⟨none, false⟩, ⟨some 0, 1⟩)
    ∧ EventBuilderArgs.resolve ⟨.noneI, false⟩ cZero ⟨some 0, 1⟩
        = .ok (⟨none, false⟩, ⟨some 0, 2⟩) :=
  ⟨rfl, rfl⟩

/-- C7: a failing specifier lookup inside _into_id_set propagates out of
resolve unchanged; no retry happens and no partial or fallback scope is
produced, so the chats attribute keeps its pre-call value. -/
theorem resolve_propagates_failure (b : EventBuilderArgs) (c : Client) (w : ResolveWorld)
    (err : PyErr) (h : _into_id_set c b.chats = .error err) :
    b.resolve c w = .error err := by
  unfold EventBuilderArgs.resolve
  rw [h]

/-- C7 witness: a client whose directory lookup fails makes resolve fail
with that same error. -/
theorem resolve_propagates_failure_witness :
    _into_id_set cFail (.one (.entity 0)) = .error .otherError
    ∧ EventBuilderArgs.resolve ⟨.one (.entity 0), false⟩ cFail ⟨none, 0⟩ = .error .otherError :=
  ⟨rfl, resolve_propagates_failure ⟨.one (.entity 0), false⟩ cFail ⟨none, 0⟩ .otherError rfl⟩

/-- C5: binding with the chat entity present in the snapshot under the
canonical id of the chat reference and carrying a usable input form sets
the input chat to that non-empty form without raising; binding with the
chat reference absent from the snapshot leaves both derived fields
undefined, as they were at construction, and does not raise. -/
theorem set_client_bind (e : EventCommon) (c : Client) :
    (∀ ent, e.entity_lookup = some ent → has_usable_hash (get_input_peer ent) = true →
        (e._set_client c).1._input_chat = some (get_input_peer ent)
          ∧ (e._set_client c).2 = none)
    ∧ (e.entity_lookup = none → e._input_chat = none →
        (e._set_client c).1._chat = none
          ∧ (e._set_client c).1._input_chat = none
          ∧ (e._set_client c).2 = none) := by
  constructor
  · intro ent hent husable
    unfold EventCommon._set_client
    rw [hent]
    simp [husable]
  · intro hnone hinput
    unfold EventCommon._set_client
    rw [hnone]
    simp [hinput]

/-- C5 witness: a snapshot holding user 5 with a live access hash yields a
defined input chat; an event about basic group 3 with an empty snapshot
leaves both derived fields undefined with nothing raised. -/
theorem set_client_bind_witness :
    ((⟨fun i => if i = 5 then some ⟨.hashForm 5 (some 99)⟩ else none, none,
        some (.user 5), none, none, none, false, none, "Event"⟩ : EventCommon)._set_client
          cOk).1._input_chat = some (.hashForm 5 (some 99))
    ∧ ((EventCommon.init (some (.chat 3)) none false)._set_client cOk).1._chat = none
    ∧ ((EventCommon.init (some (.chat 3)) none false)._set_client cOk).2 = none :=
  ⟨((set_client_bind ⟨fun i => if i = 5 then some ⟨.hashForm 5 (some 99)⟩ else none, none,
        some (.user 5), none, none, none, false, none, "Event"⟩ cOk).1
      ⟨.hashForm 5 (some 99)⟩ rfl rfl).1,
   ((set_client_bind (EventCommon.init (some (.chat 3)) none false) cOk).2 rfl rfl).1,
   ((set_client_bind (EventCommon.init (some (.chat 3)) none false) cOk).2 rfl rfl).2.2⟩

/-- C6: when the derived input form of the found chat entity lacks a usable
access credential (a falsy access hash on a form that has one, the self
input peer always counting as usable), the session store is consulted by
the original chat reference; a ValueError from that fallback is swallowed
and the input chat stays undefined, while a successful fallback result is
taken as the input chat. -/
theorem set_client_fallback (e : EventCommon) (c : Client) (ent : Entity)
    (hent : e.entity_lookup = some ent)
    (hhash : has_usable_hash (get_input_peer ent) = false) :
    (c.session.get_input_entity e._chat_peer = .error .valueError →
        (e._set_client c).1._input_chat = none ∧ (e._set_client c).2 = none)
    ∧ (∀ ip, c.session.get_input_entity e._chat_peer = .ok ip →
        (e._set_client c).1._input_chat = some ip ∧ (e._set_client c).2 = none) := by
  constructor
  · intro hsess
    unfold EventCommon._set_client
    rw [hent]
    simp [hhash, hsess]
  · intro ip hsess
    unfold EventCommon._set_client
    rw [hent]
    simp [hhash, hsess]

/-- C6 witness: basic group 7 is in the snapshot with a missing access
hash, the session raises the not-found condition, and binding ends with an
undefined input chat and nothing raised. -/
theorem set_client_fallback_witness :
    ((⟨fun i => if i = -8 then some ⟨.hashForm 7 none⟩ else none, none,
        some (.chat 7), none, none, none, false, none, "Event"⟩ : EventCommon)._set_client
          cOk).1._input_chat = none
    ∧ ((⟨fun i => if i = -8 then some ⟨.hashForm 7 none⟩ else none, none,
        some (.chat 7), none, none, none, false, none, "Event"⟩ : EventCommon)._set_client
          cOk).2 = none :=
  (set_client_fallback ⟨fun i => if i = -8 then some ⟨.hashForm 7 none⟩ else none, none,
      some (.chat 7), none, none, none, false, none, "Event"⟩ cOk
    ⟨.hashForm 7 none⟩ rfl rfl).1 rfl

/-- C8: the structured representation always contains the discriminator
entry holding the event kind name, and every other entry comes from a
public instance attribute, so its key does not start with the underscore
marker. -/
theorem to_dict_spec (e : EventCommon) :
    ("_", PyVal.strV e._event_name) ∈ e.to_dict
    ∧ ∀ kv ∈ e.to_dict, kv.1 = "_" ∨ kv.1.front ≠ '_' := by
  have hd : e.to_dict
      = [("original_update", PyVal.updateV e.original_update),
         ("_", PyVal.strV e._event_name)] := rfl
  constructor
  · rw [hd]
    exact List.mem_cons_of_mem _ (List.mem_singleton_self _)
  · intro kv hkv
    rw [hd] at hkv
    rcases List.mem_cons.mp hkv with h | h
    · subst h
      right
      show "original_update".front ≠ '_'
      decide
    · rw [List.mem_singleton.mp h]
      exact Or.inl rfl

/-- C8 witness: on a freshly constructed event the discriminator entry is
present and satisfies the key property. -/
theorem to_dict_spec_witness :
    ("_", PyVal.strV "Event") ∈ (EventCommon.init none none false).to_dict
    ∧ ((("_", PyVal.strV "Event") : String × PyVal).1 = "_"
        ∨ (("_", PyVal.strV "Event") : String × PyVal).1.front ≠ '_') :=
  ⟨(to_dict_spec (EventCommon.init none none false)).1,
   (to_dict_spec (EventCommon.init none none false)).2 ("_", PyVal.strV "Event")
     (to_dict_spec (EventCommon.init none none false)).1⟩

/-- C9: when the class owns an inner Event class the decorator rewrites
that inner discriminator name to the outer name followed by .Event and
emits no diagnostic; without one it emits exactly the non fatal diagnostic;
in both cases the class itself is handed back, its own name untouched. -/
theorem name_inner_event_spec (cls : PyClass) :
    (∀ ev, cls.Event = some ev →
        name_inner_event cls
          = ({ cls with Event := some { ev with _event_name := cls.name ++ ".Event" } }, []))
    ∧ (cls.Event = none →
        name_inner_event cls = (cls, ["Class " ++ cls.name ++ " does not have a inner Event"])) := by
  constructor
  · intro ev hev
    unfold name_inner_event
    rw [hev]
  · intro hnone
    unfold name_inner_event
    rw [hnone]

/-- C9 witness: a class named NewMessage with an inner Event gets the inner
name NewMessage.Event and no diagnostic. -/
theorem name_inner_event_spec_witness :
    name_inner_event ⟨"NewMessage", some ⟨"Event"⟩⟩
      = (⟨"NewMessage", some ⟨"NewMessage" ++ ".Event"⟩⟩, []) :=
  (name_inner_event_spec ⟨"NewMessage", some ⟨"Event"⟩⟩).1 ⟨"Event"⟩ rfl
